import Mathlib

/-!
# Verification of the raw-socket HTTP/WebSocket/SSE server

A shallow embedding of `src/index.ts`: a TCP server that classifies each
incoming buffer as an HTTP request, a WebSocket handshake, or a WebSocket
frame, and handles each accordingly.  Buffers are modelled as `List Nat`
(byte values), strings as Lean `String`, and socket effects as explicit
action lists.
-/

/-! ## SHA-1 and base64 (the algorithms invoked through Node's `crypto`
module and `Buffer`-to-base64 conversion in `generateAcceptValue`). -/

/-- Truncate to a 32-bit word. -/
def w32 (n : Nat) : Nat := n % 4294967296

/-- Rotate a 32-bit word left by `k` bits. -/
def rotl (k n : Nat) : Nat := w32 (n <<< k) ||| (n >>> (32 - k))

/-- Group bytes into 32-bit big-endian words. -/
def bytesToWords : List Nat → List Nat
  | a :: b :: c :: d :: rest => (((a * 256 + b) * 256 + c) * 256 + d) :: bytesToWords rest
  | _ => []

/-- SHA-1 round function (FIPS 180-4, `f_t`). -/
def sha1F (t b c d : Nat) : Nat :=
  if t < 20 then (b &&& c) ||| ((b ^^^ 4294967295) &&& d)
  else if t < 40 then b ^^^ c ^^^ d
  else if t < 60 then (b &&& c) ||| (b &&& d) ||| (c &&& d)
  else b ^^^ c ^^^ d

/-- SHA-1 round constants (FIPS 180-4, `K_t`). -/
def sha1K (t : Nat) : Nat :=
  if t < 20 then 0x5A827999
  else if t < 40 then 0x6ED9EBA1
  else if t < 60 then 0x8F1BBCDC
  else 0xCA62C1D6

/-- Extend the 16 block words to the 80-word message schedule. -/
def sha1Extend : Nat → List Nat → List Nat
  | 0, ws => ws
  | n + 1, ws =>
    let i := ws.length
    sha1Extend n
      (ws ++ [rotl 1 ((ws.getD (i - 3) 0) ^^^ (ws.getD (i - 8) 0) ^^^
        (ws.getD (i - 14) 0) ^^^ (ws.getD (i - 16) 0))])

/-- The SHA-1 compression loop over the message schedule. -/
def sha1Rounds : List Nat → Nat → Nat × Nat × Nat × Nat × Nat → Nat × Nat × Nat × Nat × Nat
  | [], _, st => st
  | w :: ws, t, (a, b, c, d, e) =>
    sha1Rounds ws (t + 1) (w32 (rotl 5 a + sha1F t b c d + e + sha1K t + w), a, rotl 30 b, c, d)

/-- Process one 64-byte block. -/
def sha1Block (h : Nat × Nat × Nat × Nat × Nat) (block : List Nat) :
    Nat × Nat × Nat × Nat × Nat :=
  let ws := sha1Extend 64 (bytesToWords block)
  let (h0, h1, h2, h3, h4) := h
  let (a, b, c, d, e) := sha1Rounds ws 0 h
  (w32 (h0 + a), w32 (h1 + b), w32 (h2 + c), w32 (h3 + d), w32 (h4 + e))

/-- Process `n` 64-byte blocks taken from the front of `l`. -/
def sha1Loop (h : Nat × Nat × Nat × Nat × Nat) (l : List Nat) : Nat → Nat × Nat × Nat × Nat × Nat
  | 0 => h
  | n + 1 => sha1Loop (sha1Block h (l.take 64)) (l.drop 64) n

/-- Big-endian byte representation of `n`, `k` bytes wide. -/
def natToBytesBE : Nat → Nat → List Nat
  | 0, _ => []
  | k + 1, n => natToBytesBE k (n / 256) ++ [n % 256]

/-- SHA-1 padding: a `0x80` byte, zeros up to 56 mod 64, then the 64-bit
big-endian bit length. -/
def sha1Pad (msg : List Nat) : List Nat :=
  msg ++ [0x80] ++ List.replicate ((119 - msg.length % 64) % 64) 0 ++
    natToBytesBE 8 (msg.length * 8)

/-- SHA-1 digest (20 bytes) of a byte sequence. -/
def sha1 (msg : List Nat) : List Nat :=
  let padded := sha1Pad msg
  let (h0, h1, h2, h3, h4) :=
    sha1Loop (0x67452301, 0xEFCDAB89, 0x98BADCFE, 0x10325476, 0xC3D2E1F0) padded
      (padded.length / 64)
  natToBytesBE 4 h0 ++ natToBytesBE 4 h1 ++ natToBytesBE 4 h2 ++
    natToBytesBE 4 h3 ++ natToBytesBE 4 h4

/-- The standard base64 alphabet. -/
def base64Chars : List Char :=
  "ABCDEFGHIJKLMNOPQRSTUVWXYZabcdefghijklmnopqrstuvwxyz0123456789+/".data

def b64Char (n : Nat) : Char := base64Chars.getD n 'A'

/-- Standard base64 encoding of a byte sequence, with `=` padding. -/
def base64Encode : List Nat → String
  | a :: b :: c :: rest =>
    String.mk [b64Char (a / 4), b64Char (a % 4 * 16 + b / 16),
      b64Char (b % 16 * 4 + c / 64), b64Char (c % 64)] ++ base64Encode rest
  | [a, b] =>
    String.mk [b64Char (a / 4), b64Char (a % 4 * 16 + b / 16), b64Char (b % 16 * 4), '=']
  | [a] => String.mk [b64Char (a / 4), b64Char (a % 4 * 16), '=', '=']
  | [] => ""

/-- Byte sequence of a string under Node's `'binary'` (latin1) encoding:
one byte per character, the code point reduced mod 256.  All strings fed
to it by this server are ASCII, where this agrees with UTF-8. -/
def latin1Bytes (s : String) : List Nat := s.data.map (fun c => c.toNat % 256)

/-- `generateAcceptValue` from `src/index.ts`: concatenate the client key
with the fixed GUID, SHA-1 hash the result, and base64-encode the digest. -/
def generateAcceptValue (key : String) : String :=
  base64Encode (sha1 (latin1Bytes (key ++ "258EAFA5-E914-47DA-95CA-C5AB0DC85B11")))

/-! ## Byte-level buffer operations (Node `Buffer` semantics used by the
frame codec). -/

/-- UTF-8 encoding of one character (what `Buffer.from(s, 'utf-8')`
produces per code point). -/
def utf8EncodeChar (c : Char) : List Nat :=
  let n := c.toNat
  if n < 0x80 then [n]
  else if n < 0x800 then [0xC0 ||| (n >>> 6), 0x80 ||| (n &&& 0x3F)]
  else if n < 0x10000 then
    [0xE0 ||| (n >>> 12), 0x80 ||| ((n >>> 6) &&& 0x3F), 0x80 ||| (n &&& 0x3F)]
  else
    [0xF0 ||| (n >>> 18), 0x80 ||| ((n >>> 12) &&& 0x3F), 0x80 ||| ((n >>> 6) &&& 0x3F),
      0x80 ||| (n &&& 0x3F)]

/-- UTF-8 byte sequence of a string (`Buffer.from(message, 'utf-8')`). -/
def utf8Encode (s : String) : List Nat := (s.data.map utf8EncodeChar).flatten

/-- `Buffer.alloc(n)`: `n` zero bytes. -/
def bufferAlloc (n : Nat) : List Nat := List.replicate n 0

/-- `buf[i] = v`: Node coerces the assigned value to a uint8 (mod 256);
out-of-range indexes are ignored, as `List.set` does. -/
def bufferSet (buf : List Nat) (i v : Nat) : List Nat := buf.set i (v % 256)

/-- `src.copy(dst, targetStart)`: overwrite `dst` from `targetStart` with
as many bytes of `src` as fit. -/
def bufferCopy (src dst : List Nat) (targetStart : Nat) : List Nat :=
  dst.take targetStart ++ src.take (dst.length - targetStart) ++
    dst.drop (targetStart + src.length)

/-- `data.readUInt16BE(off)`: two bytes, big-endian.  (Node throws when
fewer than two bytes remain; theorems below only use it in bounds, where
the default-0 reads never fire.) -/
def readUInt16BE (data : List Nat) (off : Nat) : Nat :=
  data.getD off 0 * 256 + data.getD (off + 1) 0

/-- `Number(data.readBigUInt64BE(off))`: eight bytes, big-endian. -/
def readBigUInt64BE (data : List Nat) (off : Nat) : Nat :=
  ((List.range 8).map (fun i => data.getD (off + i) 0)).foldl (fun acc b => acc * 256 + b) 0

/-! ## WebSocket frame codec (`handleWebSocketFrames` decoding steps and
`sendWebSocketFrame` from `src/index.ts`). -/

/-- The masking loop body: `payloadData.map((byte, idx) => byte ^ maskingKey[idx % 4])`,
with `idx` starting at `idx0`.  A missing key byte reads as 0, matching
Node's `byte ^ undefined === byte`. -/
def maskBytesFrom (maskingKey : List Nat) : Nat → List Nat → List Nat
  | _, [] => []
  | idx, byte :: rest =>
    (byte ^^^ maskingKey.getD (idx % 4) 0) :: maskBytesFrom maskingKey (idx + 1) rest

/-- XOR each payload byte with `maskingKey[index mod 4]`. -/
def maskBytes (payload maskingKey : List Nat) : List Nat := maskBytesFrom maskingKey 0 payload

/-- A decoded WebSocket frame, as built by `handleWebSocketFrames`. -/
structure WebSocketFrame where
  fin : Nat
  opcode : Nat
  mask : Nat
  payloadLength : Nat
  maskingKey : Option (List Nat)
  payload : List Nat
deriving DecidableEq

/-- The frame-decoding prefix of `handleWebSocketFrames`: header bits,
declared length (with the 126/127 extended forms), optional masking key,
`data.slice(offset, offset + payloadLength)` (which clamps at the end of
the buffer), and unmasking. -/
def decodeWebSocketFrame (data : List Nat) : WebSocketFrame :=
  let fin := data.getD 0 0 &&& 0x80
  let opcode := data.getD 0 0 &&& 0x0f
  let mask := data.getD 1 0 &&& 0x80
  let lenCode := data.getD 1 0 &&& 0x7f
  let payloadLength :=
    if lenCode == 126 then readUInt16BE data 2
    else if lenCode == 127 then readBigUInt64BE data 2
    else lenCode
  let offset := 2 + (if lenCode == 126 then 2 else if lenCode == 127 then 8 else 0)
  let maskingKey := if mask != 0 then some ((data.drop offset).take 4) else none
  let offset := offset + (if mask != 0 then 4 else 0)
  let payloadData := (data.drop offset).take payloadLength
  let payloadData :=
    match maskingKey with
    | some key => maskBytes payloadData key
    | none => payloadData
  { fin := fin, opcode := opcode, mask := mask, payloadLength := payloadLength,
    maskingKey := maskingKey, payload := payloadData }

/-- Offset of the first payload byte, as accumulated by
`handleWebSocketFrames` before slicing. -/
def frameDataOffset (data : List Nat) : Nat :=
  let mask := data.getD 1 0 &&& 0x80
  let lenCode := data.getD 1 0 &&& 0x7f
  2 + (if lenCode == 126 then 2 else if lenCode == 127 then 8 else 0) +
    (if mask != 0 then 4 else 0)

/-- `sendWebSocketFrame` from `src/index.ts`: allocate `2 + payload.length`
bytes, set byte 0 to `0x81`, byte 1 to the payload length (uint8-coerced),
and copy the UTF-8 payload in at offset 2. -/
def sendWebSocketFrame (message : String) : List Nat :=
  let payload := utf8Encode message
  let frame := bufferAlloc (2 + payload.length)
  let frame := bufferSet frame 0 0x81
  let frame := bufferSet frame 1 payload.length
  bufferCopy payload frame 2

/-! ## Protocol classifier (`socket.on('data')` dispatch,
`isWebSocketHandshake`, `isWebSocketFrame`). -/

inductive ProtocolClass where
  | webSocketHandshake
  | webSocketFrame
  | httpRequest
deriving DecidableEq

/-- `isWebSocketHandshake`: `data.toString().includes('Sec-WebSocket-Key')`.
The needle is pure ASCII, so containment in the decoded text is byte-level
containment of its ASCII bytes. -/
def isWebSocketHandshakeBytes (data : List Nat) : Bool :=
  decide (utf8Encode "Sec-WebSocket-Key" <:+: data)

/-- `isWebSocketFrame`: top bit of byte 0 set and low nibble of byte 0
nonzero.  An empty buffer reads byte 0 as 0, as `data[0]` (undefined)
coerces to 0 under `&` in Node. -/
def isWebSocketFrameBytes (data : List Nat) : Bool :=
  (data.getD 0 0 &&& 0x80 == 0x80) && (data.getD 0 0 &&& 0x0f != 0)

/-- The `socket.on('data')` dispatch: handshake check first, then frame
check, else HTTP. -/
def classifyData (data : List Nat) : ProtocolClass :=
  if isWebSocketHandshakeBytes data then ProtocolClass.webSocketHandshake
  else if isWebSocketFrameBytes data then ProtocolClass.webSocketFrame
  else ProtocolClass.httpRequest

/-! ## HTTP responder (`httpStatusMessages`, `buildStatusLine`,
`buildHeaders`, `buildResponse`, `handleHttpRequest`). -/

/-- The `httpStatusMessages` lookup table. -/
def httpStatusMessages (status : Nat) : Option String :=
  if status == 200 then some "OK"
  else if status == 201 then some "Created"
  else if status == 202 then some "Accepted"
  else if status == 204 then some "No Content"
  else if status == 301 then some "Moved Permanently"
  else if status == 302 then some "Found"
  else if status == 304 then some "Not Modified"
  else if status == 400 then some "Bad Request"
  else if status == 401 then some "Unauthorized"
  else if status == 403 then some "Forbidden"
  else if status == 404 then some "Not Found"
  else if status == 405 then some "Method Not Allowed"
  else if status == 500 then some "Internal Server Error"
  else if status == 501 then some "Not Implemented"
  else if status == 502 then some "Bad Gateway"
  else if status == 503 then some "Service Unavailable"
  else none

/-- `buildStatusLine`: `HTTP/1.1 <code> <reason>\r\n`, with the
`|| 'Unknown Status'` fallback. -/
def buildStatusLine (status : Nat) : String :=
  "HTTP/1.1 " ++ toString status ++ " " ++ (httpStatusMessages status).getD "Unknown Status"
    ++ "\r\n"

/-- `buildHeaders`: `key: value` lines joined by CRLF, one trailing CRLF. -/
def buildHeaders (headers : List (String × String)) : String :=
  String.intercalate "\r\n" (headers.map fun kv => kv.1 ++ ": " ++ kv.2) ++ "\r\n"

/-- `buildResponse`: status line, header lines, blank line, body. -/
def buildResponse (status : Nat) (headers : List (String × String)) (body : String) : String :=
  buildStatusLine status ++ buildHeaders headers ++ "\r\n" ++ body

/-- The recursion behind `jsSplit`, with enough fuel to consume the whole
list (structural recursion, so proofs can evaluate it). -/
def jsSplitGo (sep : List Char) : Nat → List Char → List Char → List (List Char)
  | _, [], acc => [acc.reverse]
  | 0, l, acc => [acc.reverse ++ l]
  | fuel + 1, c :: rest, acc =>
    if sep.isPrefixOf (c :: rest) then
      acc.reverse :: jsSplitGo sep fuel (List.drop (sep.length - 1) rest) []
    else jsSplitGo sep fuel rest (c :: acc)

/-- JavaScript `s.split(sep)` for a non-empty separator: the pieces of `s`
between non-overlapping left-to-right occurrences of `sep`. -/
def jsSplit (s sep : String) : List String :=
  (jsSplitGo sep.data s.data.length s.data []).map String.mk

/-- JavaScript `s.startsWith(pre)`, as character-list prefix testing. -/
def strStartsWith (s pre : String) : Bool := pre.data.isPrefixOf s.data

/-- The parsed request method: first space-separated token of the first
CRLF-separated line. -/
def httpMethod (request : String) : String :=
  ((jsSplit ((jsSplit request "\r\n").headD "") " ").headD "")

/-- The parsed request path: second space-separated token of the first
line; `none` models JavaScript's `undefined` when it is missing. -/
def httpPath (request : String) : Option String :=
  (jsSplit ((jsSplit request "\r\n").headD "") " ")[1]?

/-- Outcome of `handleHttpRequest`: either a written response (carrying
the serialized wire text and whether `socket.end()` follows), or the
delegation to the SSE subscription path. -/
inductive HttpResult where
  | response (status : Nat) (headers : List (String × String)) (body : String)
      (wire : String) (closeAfter : Bool)
  | sse
deriving DecidableEq

/-- The common tail of `handleHttpRequest`: build and write the response,
then `socket.end()` exactly when the status is not 426. -/
def httpFinish (status : Nat) (headers : List (String × String)) (body : String) : HttpResult :=
  HttpResult.response status headers body (buildResponse status headers body) (status != 426)

/-- The base response headers set before routing. -/
def baseResponseHeaders : List (String × String) :=
  [("Content-Type", "text/plain"), ("Access-Control-Allow-Origin", "*")]

/-- `handleHttpRequest` from `src/index.ts`. -/
def handleHttpRequest (request : String) : HttpResult :=
  let method := httpMethod request
  let path := httpPath request
  if method == "GET" && path == some "/" then
    httpFinish 200 baseResponseHeaders "Hello, world!"
  else if method == "GET" && path == some "/websocket" then
    httpFinish 426 (baseResponseHeaders ++ [("Upgrade", "websocket"), ("Connection", "Upgrade")])
      "Upgrade Required"
  else if method == "GET" && path == some "/serverside-events" then
    HttpResult.sse
  else
    httpFinish 404 baseResponseHeaders "Not Found"

/-! ## WebSocket handshake handler (`handleWebSocketHandshake`). -/

/-- An effect performed on the socket. -/
inductive SocketAction where
  | writeData (s : String)
  | endSocket
deriving DecidableEq

/-- `String.includes`: substring containment on characters. -/
def strIncludes (haystack needle : String) : Bool :=
  decide (needle.data <:+: haystack.data)

/-- `isWebSocketHandshake` viewed on the decoded request text. -/
def isWebSocketHandshakeStr (text : String) : Bool :=
  strIncludes text "Sec-WebSocket-Key"

/-- The 101 response written on a successful handshake. -/
def handshakeResponse (acceptKey : String) : String :=
  "HTTP/1.1 101 Switching Protocols\r\nUpgrade: websocket\r\nConnection: Upgrade\r\n" ++
    "Sec-WebSocket-Accept: " ++ acceptKey ++ "\r\nAccess-Control-Allow-Origin: *\r\n\r\n"

/-- `handleWebSocketHandshake` from `src/index.ts`, on the decoded request
text: split on CRLF, find the line starting with `Sec-WebSocket-Key`, take
the token after `: `; write the 101 response only when a non-empty key was
extracted (`if (key)`), otherwise do nothing. -/
def handleWebSocketHandshake (text : String) : List SocketAction :=
  let headers := jsSplit text "\r\n"
  let found := headers.find? (fun header => strStartsWith header "Sec-WebSocket-Key")
  let key : Option String :=
    match found with
    | some line => (jsSplit line ": ")[1]?
    | none => none
  match key with
  | some k => if k != "" then [SocketAction.writeData (handshakeResponse (generateAcceptValue k))] else []
  | none => []

/-! ## SSE message formatting (`formatSseMessage`). -/

/-- An SSE message; `none` models an absent (`undefined`) field. -/
structure SseMessage where
  event : Option String := none
  data : Option String := none
  id : Option String := none
  retry : Option String := none

/-- JavaScript truthiness of an optional string: `undefined` and the empty
string are falsy. -/
def truthy (o : Option String) : Bool := o.getD "" != ""

/-- `formatSseMessage` from `src/index.ts`: append `<name>: <value>\n` for
each truthy field in the order event, data, id, retry, then a final `\n`. -/
def formatSseMessage (m : SseMessage) : String :=
  let s := ""
  let s := if truthy m.event then s ++ "event: " ++ m.event.getD "" ++ "\n" else s
  let s := if truthy m.data then s ++ "data: " ++ m.data.getD "" ++ "\n" else s
  let s := if truthy m.id then s ++ "id: " ++ m.id.getD "" ++ "\n" else s
  let s := if truthy m.retry then s ++ "retry: " ++ m.retry.getD "" ++ "\n" else s
  s ++ "\n"

/-! ## Claim-side definitions -/

/-- The field line of the spec's SSE format description: a present field
emits one `<fieldname>: <value>` line followed by a newline, an absent
field emits nothing. -/
def sseFieldLineSpec (name : String) (v : Option String) : String :=
  match v with
  | some s => name ++ ": " ++ s ++ "\n"
  | none => ""

/-! ## Helper lemmas -/

set_option maxRecDepth 10000

theorem maskBytesFrom_maskBytesFrom (key : List Nat) (p : List Nat) :
    ∀ i, maskBytesFrom key i (maskBytesFrom key i p) = p := by
  induction p with
  | nil => intro i; rfl
  | cons b rest ih =>
    intro i
    simp [maskBytesFrom, Nat.xor_cancel_right, ih]

theorem maskBytesFrom_length (key : List Nat) (p : List Nat) :
    ∀ i, (maskBytesFrom key i p).length = p.length := by
  induction p with
  | nil => intro i; rfl
  | cons b rest ih => intro i; simp [maskBytesFrom, ih]

/-! ## Claims -/

/-- C1: the accept-value computation (key ++ fixed GUID, SHA-1, base64)
applied to the key `dGhlIHNhbXBsZSBub25jZQ==` returns exactly
`s3pPLMBiTxaQ9kYGzzhZRbK+xOo=`. -/
theorem C1_handshake_accept_vector :
    generateAcceptValue "dGhlIHNhbXBsZSBub25jZQ==" = "s3pPLMBiTxaQ9kYGzzhZRbK+xOo=" := by
  decide

/-- C2: encoding the text `hello` and decoding the resulting bytes yields
a frame with opcode 1 whose payload is the UTF-8 encoding of `hello`
(i.e. it decodes back to the text `hello`). -/
theorem C2_frame_round_trip :
    (decodeWebSocketFrame (sendWebSocketFrame "hello")).opcode = 1 ∧
      (decodeWebSocketFrame (sendWebSocketFrame "hello")).payload = utf8Encode "hello" := by
  decide

/-- C3: XOR masking with `maskingKey[index mod 4]` is an involution: for
every payload and every 4-byte key, masking twice gives back the payload. -/
theorem C3_masking_involution (payload maskingKey : List Nat)
    (_h : maskingKey.length = 4) :
    maskBytes (maskBytes payload maskingKey) maskingKey = payload :=
  maskBytesFrom_maskBytesFrom maskingKey payload 0

theorem C3_masking_involution_witness :
    ([1, 2, 3, 4] : List Nat).length = 4 ∧
      maskBytes (maskBytes [10, 200, 30, 40, 50] [1, 2, 3, 4]) [1, 2, 3, 4]
        = [10, 200, 30, 40, 50] :=
  ⟨by decide, C3_masking_involution [10, 200, 30, 40, 50] [1, 2, 3, 4] (by decide)⟩

/-- C9: `formatSseMessage` treats a field set to the empty string exactly
like an absent field; in particular a message with all four fields empty
formats to a single blank line, identical to the empty message. -/
theorem C9_empty_string_fields_absent (e d i r : Option String) :
    formatSseMessage { event := some "", data := d, id := i, retry := r }
        = formatSseMessage { event := none, data := d, id := i, retry := r } ∧
      formatSseMessage { event := e, data := some "", id := i, retry := r }
        = formatSseMessage { event := e, data := none, id := i, retry := r } ∧
      formatSseMessage { event := e, data := d, id := some "", retry := r }
        = formatSseMessage { event := e, data := d, id := none, retry := r } ∧
      formatSseMessage { event := e, data := d, id := i, retry := some "" }
        = formatSseMessage { event := e, data := d, id := i, retry := none } ∧
      formatSseMessage { event := some "", data := some "", id := some "", retry := some "" }
        = "\n" ∧
      formatSseMessage {} = "\n" := by
  refine ⟨?_, ?_, ?_, ?_, by decide, by decide⟩ <;> simp [formatSseMessage, truthy]

theorem nlGlueData (x : String) : "\n" ++ ("data: " ++ x) = "\ndata: " ++ x := by
  rw [← String.append_assoc]
  exact congrArg (fun s => s ++ x) (by decide)

theorem nlGlueId (x : String) : "\n" ++ ("id: " ++ x) = "\nid: " ++ x := by
  rw [← String.append_assoc]
  exact congrArg (fun s => s ++ x) (by decide)

theorem nlGlueRetry (x : String) : "\n" ++ ("retry: " ++ x) = "\nretry: " ++ x := by
  rw [← String.append_assoc]
  exact congrArg (fun s => s ++ x) (by decide)

/-- C5 counterexample: the claim as frozen — one `<fieldname>: <value>`
line per present field, for every SseMessage — fails at the message with
`event` present but set to the empty string: the per-present-field rule
prescribes `"event: \n\n"`, while the code emits only the blank line. -/
theorem C5_sse_format_counterexample :
    formatSseMessage { event := some "", data := none, id := none, retry := none }
        ≠ sseFieldLineSpec "event" (some "") ++ sseFieldLineSpec "data" none ++
          sseFieldLineSpec "id" none ++ sseFieldLineSpec "retry" none ++ "\n" ∧
      formatSseMessage { event := some "", data := none, id := none, retry := none } = "\n" := by
  exact ⟨by decide, by decide⟩

/-- C5 (amended): for every message whose set fields are non-empty, `formatSseMessage`
emits one `<fieldname>: <value>` line per present field in the fixed order
event, data, id, retry, omits absent fields, and appends a single trailing
newline; in particular `format {event := ping, data := x}` is
`"event: ping\ndata: x\n\n"` and `format {}` is `"\n"`. -/
theorem C5_sse_format (e d i r : Option String)
    (he : e ≠ some "") (hd : d ≠ some "") (hi : i ≠ some "") (hr : r ≠ some "") :
    formatSseMessage { event := e, data := d, id := i, retry := r }
        = sseFieldLineSpec "event" e ++ sseFieldLineSpec "data" d ++
          sseFieldLineSpec "id" i ++ sseFieldLineSpec "retry" r ++ "\n" ∧
      formatSseMessage { event := some "ping", data := some "x", id := none, retry := none }
        = "event: ping\ndata: x\n\n" ∧
      formatSseMessage {} = "\n" := by
  refine ⟨?_, by decide, by decide⟩
  cases e with
  | none =>
    cases d with
    | none =>
      cases i with
      | none =>
        cases r with
        | none => simp [formatSseMessage, truthy, sseFieldLineSpec, String.empty_append]
        | some rv =>
          have hrv : rv ≠ "" := fun hh => hr (by rw [hh])
          simp [formatSseMessage, truthy, sseFieldLineSpec, String.empty_append,
            String.append_assoc, nlGlueData, nlGlueId, nlGlueRetry, hrv]
      | some iv =>
        have hiv : iv ≠ "" := fun hh => hi (by rw [hh])
        cases r with
        | none =>
          simp [formatSseMessage, truthy, sseFieldLineSpec, String.empty_append,
            String.append_empty, String.append_assoc, nlGlueData, nlGlueId, nlGlueRetry, hiv]
        | some rv =>
          have hrv : rv ≠ "" := fun hh => hr (by rw [hh])
          simp [formatSseMessage, truthy, sseFieldLineSpec, String.empty_append,
            String.append_assoc, nlGlueData, nlGlueId, nlGlueRetry, hiv, hrv]
    | some dv =>
      have hdv : dv ≠ "" := fun hh => hd (by rw [hh])
      cases i with
      | none =>
        cases r with
        | none =>
          simp [formatSseMessage, truthy, sseFieldLineSpec, String.empty_append,
            String.append_empty, String.append_assoc, nlGlueData, nlGlueId, nlGlueRetry, hdv]
        | some rv =>
          have hrv : rv ≠ "" := fun hh => hr (by rw [hh])
          simp [formatSseMessage, truthy, sseFieldLineSpec, String.empty_append,
            String.append_assoc, nlGlueData, nlGlueId, nlGlueRetry, hdv, hrv]
      | some iv =>
        have hiv : iv ≠ "" := fun hh => hi (by rw [hh])
        cases r with
        | none =>
          simp [formatSseMessage, truthy, sseFieldLineSpec, String.empty_append,
            String.append_empty, String.append_assoc, nlGlueData, nlGlueId, nlGlueRetry, hdv, hiv]
        | some rv =>
          have hrv : rv ≠ "" := fun hh => hr (by rw [hh])
          simp [formatSseMessage, truthy, sseFieldLineSpec, String.empty_append,
            String.append_assoc, nlGlueData, nlGlueId, nlGlueRetry, hdv, hiv, hrv]
  | some ev =>
    have hev : ev ≠ "" := fun hh => he (by rw [hh])
    cases d with
    | none =>
      cases i with
      | none =>
        cases r with
        | none =>
          simp [formatSseMessage, truthy, sseFieldLineSpec, String.empty_append,
            String.append_empty, String.append_assoc, nlGlueData, nlGlueId, nlGlueRetry, hev]
        | some rv =>
          have hrv : rv ≠ "" := fun hh => hr (by rw [hh])
          simp [formatSseMessage, truthy, sseFieldLineSpec, String.empty_append,
            String.append_assoc, nlGlueData, nlGlueId, nlGlueRetry, hev, hrv]
      | some iv =>
        have hiv : iv ≠ "" := fun hh => hi (by rw [hh])
        cases r with
        | none =>
          simp [formatSseMessage, truthy, sseFieldLineSpec, String.empty_append,
            String.append_empty, String.append_assoc, nlGlueData, nlGlueId, nlGlueRetry, hev, hiv]
        | some rv =>
          have hrv : rv ≠ "" := fun hh => hr (by rw [hh])
          simp [formatSseMessage, truthy, sseFieldLineSpec, String.empty_append,
            String.append_assoc, nlGlueData, nlGlueId, nlGlueRetry, hev, hiv, hrv]
    | some dv =>
      have hdv : dv ≠ "" := fun hh => hd (by rw [hh])
      cases i with
      | none =>
        cases r with
        | none =>
          simp [formatSseMessage, truthy, sseFieldLineSpec, String.empty_append,
            String.append_empty, String.append_assoc, nlGlueData, nlGlueId, nlGlueRetry, hev, hdv]
        | some rv =>
          have hrv : rv ≠ "" := fun hh => hr (by rw [hh])
          simp [formatSseMessage, truthy, sseFieldLineSpec, String.empty_append,
            String.append_assoc, nlGlueData, nlGlueId, nlGlueRetry, hev, hdv, hrv]
      | some iv =>
        have hiv : iv ≠ "" := fun hh => hi (by rw [hh])
        cases r with
        | none =>
          simp [formatSseMessage, truthy, sseFieldLineSpec, String.empty_append,
            String.append_empty, String.append_assoc, nlGlueData, nlGlueId, nlGlueRetry, hev, hdv, hiv]
        | some rv =>
          have hrv : rv ≠ "" := fun hh => hr (by rw [hh])
          simp [formatSseMessage, truthy, sseFieldLineSpec, String.empty_append,
            String.append_assoc, nlGlueData, nlGlueId, nlGlueRetry, hev, hdv, hiv, hrv]

theorem C5_sse_format_witness :
    (some "ping" : Option String) ≠ some "" ∧ (some "x" : Option String) ≠ some "" ∧
      (none : Option String) ≠ some "" ∧
      (formatSseMessage { event := some "ping", data := some "x", id := none, retry := none }
          = sseFieldLineSpec "event" (some "ping") ++ sseFieldLineSpec "data" (some "x") ++
            sseFieldLineSpec "id" none ++ sseFieldLineSpec "retry" none ++ "\n" ∧
        formatSseMessage { event := some "ping", data := some "x", id := none, retry := none }
          = "event: ping\ndata: x\n\n" ∧
        formatSseMessage {} = "\n") :=
  ⟨by decide, by decide, by decide,
    C5_sse_format (some "ping") (some "x") none none (by decide) (by decide) (by decide)
      (by decide)⟩

theorem beqPair_false {m mv : String} {p pv : Option String} (h : ¬(m = mv ∧ p = pv)) :
    ((m == mv) && (p == pv)) = false := by
  cases hb : ((m == mv) && (p == pv)) with
  | false => rfl
  | true => exact absurd (by simpa [Bool.and_eq_true, beq_iff_eq] using hb) h

/-- C4: HTTP routing: `GET /` yields 200 `Hello, world!`; `GET /websocket`
yields 426 `Upgrade Required` with the Upgrade/Connection headers; any
other method/path besides `GET /serverside-events` yields 404 `Not Found`;
every written response carries `Content-Type: text/plain` and
`Access-Control-Allow-Origin: *`; and `socket.end()` follows the write
exactly when the status is not 426. -/
theorem C4_http_routing (request : String) :
    (httpMethod request = "GET" → httpPath request = some "/" →
      handleHttpRequest request = HttpResult.response 200
        [("Content-Type", "text/plain"), ("Access-Control-Allow-Origin", "*")]
        "Hello, world!"
        "HTTP/1.1 200 OK\r\nContent-Type: text/plain\r\nAccess-Control-Allow-Origin: *\r\n\r\nHello, world!"
        true) ∧
    (httpMethod request = "GET" → httpPath request = some "/websocket" →
      handleHttpRequest request = HttpResult.response 426
        [("Content-Type", "text/plain"), ("Access-Control-Allow-Origin", "*"),
          ("Upgrade", "websocket"), ("Connection", "Upgrade")]
        "Upgrade Required"
        "HTTP/1.1 426 Unknown Status\r\nContent-Type: text/plain\r\nAccess-Control-Allow-Origin: *\r\nUpgrade: websocket\r\nConnection: Upgrade\r\n\r\nUpgrade Required"
        false) ∧
    (¬(httpMethod request = "GET" ∧ httpPath request = some "/") →
      ¬(httpMethod request = "GET" ∧ httpPath request = some "/websocket") →
      ¬(httpMethod request = "GET" ∧ httpPath request = some "/serverside-events") →
      handleHttpRequest request = HttpResult.response 404
        [("Content-Type", "text/plain"), ("Access-Control-Allow-Origin", "*")]
        "Not Found"
        "HTTP/1.1 404 Not Found\r\nContent-Type: text/plain\r\nAccess-Control-Allow-Origin: *\r\n\r\nNot Found"
        true) ∧
    (∀ s hdrs b w c, handleHttpRequest request = HttpResult.response s hdrs b w c →
      ("Content-Type", "text/plain") ∈ hdrs ∧ ("Access-Control-Allow-Origin", "*") ∈ hdrs ∧
        (c = true ↔ s ≠ 426)) := by
  refine ⟨?_, ?_, ?_, ?_⟩
  · intro hm hp
    simp only [handleHttpRequest, hm, hp]
    decide
  · intro hm hp
    simp only [handleHttpRequest, hm, hp]
    decide
  · intro h1 h2 h3
    simp only [handleHttpRequest, beqPair_false h1, beqPair_false h2, beqPair_false h3,
      Bool.false_eq_true, if_false]
    decide
  · intro s hdrs b w c hres
    simp only [handleHttpRequest, httpFinish] at hres
    split at hres
    · cases hres; decide
    · split at hres
      · cases hres; decide
      · split at hres
        · cases hres
        · cases hres; decide

theorem C4_http_routing_witness :
    httpMethod "GET / HTTP/1.1\r\nHost: localhost\r\n\r\n" = "GET" ∧
      httpPath "GET / HTTP/1.1\r\nHost: localhost\r\n\r\n" = some "/" ∧
      handleHttpRequest "GET / HTTP/1.1\r\nHost: localhost\r\n\r\n" = HttpResult.response 200
        [("Content-Type", "text/plain"), ("Access-Control-Allow-Origin", "*")]
        "Hello, world!"
        "HTTP/1.1 200 OK\r\nContent-Type: text/plain\r\nAccess-Control-Allow-Origin: *\r\n\r\nHello, world!"
        true :=
  ⟨by decide, by decide,
    (C4_http_routing "GET / HTTP/1.1\r\nHost: localhost\r\n\r\n").1 (by decide) (by decide)⟩

/-- C6: the first-buffer classifier: any buffer containing the bytes of
`Sec-WebSocket-Key` is classified as a handshake regardless of other byte
patterns; otherwise it is a WebSocket frame exactly when byte 0 has its
top bit set and a nonzero low nibble; otherwise it is an HTTP request. -/
theorem C6_classifier_priority (data : List Nat) :
    (utf8Encode "Sec-WebSocket-Key" <:+: data →
      classifyData data = ProtocolClass.webSocketHandshake) ∧
    (¬(utf8Encode "Sec-WebSocket-Key" <:+: data) →
      (classifyData data = ProtocolClass.webSocketFrame ↔
        (data.getD 0 0 &&& 0x80 = 0x80 ∧ data.getD 0 0 &&& 0x0f ≠ 0))) ∧
    (¬(utf8Encode "Sec-WebSocket-Key" <:+: data) →
      ¬(data.getD 0 0 &&& 0x80 = 0x80 ∧ data.getD 0 0 &&& 0x0f ≠ 0) →
      classifyData data = ProtocolClass.httpRequest) := by
  have hkey : isWebSocketHandshakeBytes data = true ↔
      (utf8Encode "Sec-WebSocket-Key" <:+: data) := by
    simp [isWebSocketHandshakeBytes]
  have hframe : isWebSocketFrameBytes data = true ↔
      (data.getD 0 0 &&& 0x80 = 0x80 ∧ data.getD 0 0 &&& 0x0f ≠ 0) := by
    simp [isWebSocketFrameBytes, Bool.and_eq_true, beq_iff_eq, bne_iff_ne]
  refine ⟨fun h => ?_, fun h => ?_, fun h h2 => ?_⟩
  · unfold classifyData
    rw [if_pos (hkey.mpr h)]
  · unfold classifyData
    rw [if_neg (fun hc => h (hkey.mp hc))]
    by_cases hf : isWebSocketFrameBytes data = true
    · rw [if_pos hf]
      exact iff_of_true rfl (hframe.mp hf)
    · rw [if_neg hf]
      constructor
      · intro hh; exact absurd hh (by decide)
      · intro hb; exact absurd (hframe.mpr hb) hf
  · unfold classifyData
    rw [if_neg (fun hc => h (hkey.mp hc)), if_neg (fun hc => h2 (hframe.mp hc))]

theorem C6_classifier_priority_witness :
    (utf8Encode "Sec-WebSocket-Key" <:+:
        utf8Encode "\x81\x05GET /ws HTTP/1.1\r\nSec-WebSocket-Key: abc\r\n\r\n") ∧
      classifyData (utf8Encode "\x81\x05GET /ws HTTP/1.1\r\nSec-WebSocket-Key: abc\r\n\r\n")
        = ProtocolClass.webSocketHandshake :=
  ⟨by decide,
    (C6_classifier_priority
        (utf8Encode "\x81\x05GET /ws HTTP/1.1\r\nSec-WebSocket-Key: abc\r\n\r\n")).1 (by decide)⟩

/-- C7: when a buffer classified as a WebSocket handshake has no header
line starting with `Sec-WebSocket-Key`, the handshake handler writes
nothing to the socket and does not close it: a silent no-op. -/
theorem C7_missing_key_noop (text : String)
    (_hclass : isWebSocketHandshakeStr text = true)
    (hnolines : ∀ line ∈ jsSplit text "\r\n",
      strStartsWith line "Sec-WebSocket-Key" = false) :
    handleWebSocketHandshake text = [] := by
  unfold handleWebSocketHandshake
  have hfind : (jsSplit text "\r\n").find?
      (fun header => strStartsWith header "Sec-WebSocket-Key") = none := by
    rw [List.find?_eq_none]
    intro x hx
    simp [hnolines x hx]
  simp [hfind]

theorem C7_missing_key_noop_witness :
    isWebSocketHandshakeStr "GET /ws HTTP/1.1\r\nX-Sec-WebSocket-Key: abc\r\n\r\n" = true ∧
      (∀ line ∈ jsSplit "GET /ws HTTP/1.1\r\nX-Sec-WebSocket-Key: abc\r\n\r\n" "\r\n",
        strStartsWith line "Sec-WebSocket-Key" = false) ∧
      handleWebSocketHandshake "GET /ws HTTP/1.1\r\nX-Sec-WebSocket-Key: abc\r\n\r\n" = [] :=
  ⟨by decide, by decide,
    C7_missing_key_noop "GET /ws HTTP/1.1\r\nX-Sec-WebSocket-Key: abc\r\n\r\n" (by decide)
      (by decide)⟩

/-- C8 (amended): for every buffer that actually contains the declared
payload (header plus declared length within the buffer), the unmasked
payload has length equal to the declared `payloadLength`.  (As originally
stated — for every buffer — the claim fails: `Buffer.slice` clamps, see
the counterexample.) -/
theorem C8_payload_length_amended (data : List Nat)
    (h : frameDataOffset data + (decodeWebSocketFrame data).payloadLength ≤ data.length) :
    (decodeWebSocketFrame data).payload.length = (decodeWebSocketFrame data).payloadLength := by
  simp only [decodeWebSocketFrame, frameDataOffset] at h ⊢
  split_ifs at h ⊢ <;>
    simp_all [maskBytes, maskBytesFrom_length, List.length_take, List.length_drop] <;>
    omega

theorem C8_payload_length_witness :
    frameDataOffset [0x81, 0x83, 1, 2, 3, 4, 10, 20, 30] +
        (decodeWebSocketFrame [0x81, 0x83, 1, 2, 3, 4, 10, 20, 30]).payloadLength ≤
        ([0x81, 0x83, 1, 2, 3, 4, 10, 20, 30] : List Nat).length ∧
      (decodeWebSocketFrame [0x81, 0x83, 1, 2, 3, 4, 10, 20, 30]).payload.length =
        (decodeWebSocketFrame [0x81, 0x83, 1, 2, 3, 4, 10, 20, 30]).payloadLength :=
  ⟨by decide, C8_payload_length_amended [0x81, 0x83, 1, 2, 3, 4, 10, 20, 30] (by decide)⟩

/-- C8 counterexample: the claim as stated — the unmasked payload length
always equals the declared `payloadLength` — fails on the truncated frame
`[0x81, 0x05]`, which declares 5 payload bytes but carries none. -/
theorem C8_payload_length_counterexample :
    (decodeWebSocketFrame [0x81, 0x05]).payload.length ≠
      (decodeWebSocketFrame [0x81, 0x05]).payloadLength := by
  decide

/-- C10: for every text with UTF-8 byte length `L`, the encoder emits
exactly `2 + L` bytes: byte 0 is `0x81`, byte 1 is `L mod 256` (so no
extended-length bytes are ever emitted), and for `L` between 128 and 255
the emitted length byte has its top (mask) bit set. -/
theorem C10_encoder_shape (message : String) :
    sendWebSocketFrame message
        = 0x81 :: ((utf8Encode message).length % 256) :: utf8Encode message ∧
      (sendWebSocketFrame message).length = 2 + (utf8Encode message).length ∧
      (128 ≤ (utf8Encode message).length → (utf8Encode message).length ≤ 255 →
        (sendWebSocketFrame message).getD 1 0 &&& 0x80 = 0x80) := by
  have hmain : sendWebSocketFrame message
      = 0x81 :: ((utf8Encode message).length % 256) :: utf8Encode message := by
    unfold sendWebSocketFrame bufferAlloc bufferSet bufferCopy
    dsimp only
    rw [List.replicate_add]
    have h1 : (List.replicate 2 (0 : Nat) ++ List.replicate (utf8Encode message).length 0).set 0
        (129 % 256) = 129 :: 0 :: List.replicate (utf8Encode message).length 0 := rfl
    rw [h1]
    have h2 : (129 :: 0 :: List.replicate (utf8Encode message).length 0).set 1
        ((utf8Encode message).length % 256)
        = 129 :: ((utf8Encode message).length % 256) ::
          List.replicate (utf8Encode message).length 0 := rfl
    rw [h2]
    have h3 : (129 :: ((utf8Encode message).length % 256) ::
        List.replicate (utf8Encode message).length 0).length = (utf8Encode message).length + 2 := by
      simp only [List.length_cons, List.length_replicate]
    rw [h3]
    have h4 : (utf8Encode message).length + 2 - 2 = (utf8Encode message).length := by omega
    rw [h4, List.take_length]
    have h5 : (129 :: ((utf8Encode message).length % 256) ::
        List.replicate (utf8Encode message).length 0).drop (2 + (utf8Encode message).length)
        = [] := by
      rw [Nat.add_comm 2 (utf8Encode message).length]
      show (List.replicate (utf8Encode message).length (0 : Nat)).drop
        (utf8Encode message).length = []
      exact List.drop_eq_nil_of_le (by simp)
    rw [h5]
    simp
  refine ⟨hmain, ?_, ?_⟩
  · rw [hmain]; simp only [List.length_cons]; omega
  · intro hlo hhi
    rw [hmain]
    show ((utf8Encode message).length % 256) &&& 128 = 128
    have hmod : (utf8Encode message).length % 256 = (utf8Encode message).length :=
      Nat.mod_eq_of_lt (by omega)
    rw [hmod]
    have h7 : (utf8Encode message).length.testBit 7 = true := by
      rw [Nat.testBit_to_div_mod]
      simp only [decide_eq_true_eq]
      omega
    calc (utf8Encode message).length &&& 128
        = (utf8Encode message).length &&& 2 ^ 7 := by norm_num
      _ = ((utf8Encode message).length.testBit 7).toNat * 2 ^ 7 := Nat.and_two_pow _ _
      _ = 128 := by rw [h7]; rfl

theorem C10_encoder_shape_witness :
    128 ≤ (utf8Encode (String.mk (List.replicate 130 'a'))).length ∧
      (utf8Encode (String.mk (List.replicate 130 'a'))).length ≤ 255 ∧
      (sendWebSocketFrame (String.mk (List.replicate 130 'a'))).getD 1 0 &&& 0x80 = 0x80 :=
  ⟨by decide, by decide,
    (C10_encoder_shape (String.mk (List.replicate 130 'a'))).2.2 (by decide) (by decide)⟩
